import Mathlib

/-!
Verification development for the Clg-Mail-manager repository
(`Mail_Manager.py`, `gmail.py`): a shallow embedding of the
task-management agent — the `format_due_date` helper, the four Google
Tasks tools (`read_tasks`, `create_task`, `edit_task`, `remove_task`),
the LangGraph wiring (`mail_agent` node, conditional edge, `tools` node,
END), and `analyse_email_process_task` — together with theorems settling
the specification claims.

External collaborators are modelled explicitly:
* Python `datetime` values are modelled by the structure `PyDateTime`
  (second precision, UTC offset in minutes).  The stdlib parser
  `datetime.fromisoformat` is external library code; a timestamp string
  argument is represented by its parse outcome, of type
  `PyTs := Except String PyDateTime` (`.error msg` models the
  `ValueError` raised on a malformed string, carrying the exception
  text).
* The remote Google Tasks store is a list of `GTask` values inside an
  environment `Env`; `Env` also carries the semantics of the remote
  `q=` query (opaque to the client) and flags saying which remote calls
  raise, so that the tools' `try/except` handlers can be exercised.
  Per the Google Tasks API, `insert` without a `previous` parameter
  places the new task at the top of the list, and `list` returns at
  most `maxResults` tasks from the top.
* Each tool returns, besides its result string and the resulting store,
  the trace of store calls it issued, so that claims such as "no insert
  call is issued" are directly statable.
-/

namespace MailManager

/-- A single apostrophe character, used in the tools' message strings
(e.g. `Task 'x' not found.`). -/
def sq : String := (Char.ofNat 39).toString

/-! ## Python datetime model -/

/-- Model of a Python `datetime.datetime` value at second precision.
`tzinfo` is the UTC offset in minutes (`none` for a naive datetime). -/
structure PyDateTime where
  year : Nat
  month : Nat
  day : Nat
  hour : Nat
  minute : Nat
  second : Nat
  tzinfo : Option Int
  deriving Repr, DecidableEq

/-- Outcome of `datetime.fromisoformat` on a timestamp string: a parsed
datetime, or the text of the `ValueError` it raised. -/
def PyTs : Type := Except String PyDateTime

instance : Repr PyTs := inferInstanceAs (Repr (Except String PyDateTime))

instance : DecidableEq PyTs := fun x y =>
  match x, y with
  | Except.error a, Except.error b =>
      if h : a = b then .isTrue (by rw [h]) else .isFalse (by intro hc; cases hc; exact h rfl)
  | Except.error _, Except.ok _ => .isFalse (by intro hc; cases hc)
  | Except.ok _, Except.error _ => .isFalse (by intro hc; cases hc)
  | Except.ok a, Except.ok b =>
      if h : a = b then .isTrue (by rw [h]) else .isFalse (by intro hc; cases hc; exact h rfl)

/-- Gregorian leap-year test. -/
def isLeapYear (y : Nat) : Bool :=
  (y % 4 == 0 && y % 100 != 0) || (y % 400 == 0)

/-- Number of days in a month of a given year. -/
def daysInMonth (y m : Nat) : Nat :=
  if m == 2 then (if isLeapYear y then 29 else 28)
  else if m == 4 || m == 6 || m == 9 || m == 11 then 30
  else 31

/-- Step a calendar date forward by one day. -/
def nextDay : Nat × Nat × Nat → Nat × Nat × Nat
  | (y, m, d) =>
    if d < daysInMonth y m then (y, m, d + 1)
    else if m < 12 then (y, m + 1, 1)
    else (y + 1, 1, 1)

/-- Step a calendar date backward by one day. -/
def prevDay : Nat × Nat × Nat → Nat × Nat × Nat
  | (y, m, d) =>
    if d > 1 then (y, m, d - 1)
    else if m > 1 then (y, m - 1, daysInMonth y (m - 1))
    else (y - 1, 12, daysInMonth (y - 1) 12)

/-- Shift a calendar date by a (possibly negative) number of days. -/
def addDays (ymd : Nat × Nat × Nat) (k : Int) : Nat × Nat × Nat :=
  if k > 0 then addDays (nextDay ymd) (k - 1)
  else if k < 0 then addDays (prevDay ymd) (k + 1)
  else ymd
  termination_by k.natAbs
  decreasing_by
  · omega
  · omega

/-- Shift a datetime by a number of minutes, carrying into the date. -/
def addMinutes (dt : PyDateTime) (delta : Int) : PyDateTime :=
  let total : Int := (dt.hour : Int) * 60 + (dt.minute : Int) + delta
  let dayShift : Int := total / 1440
  let rem : Int := total % 1440
  let ymd := addDays (dt.year, dt.month, dt.day) dayShift
  { dt with
    year := ymd.1, month := ymd.2.1, day := ymd.2.2,
    hour := (rem / 60).toNat, minute := (rem % 60).toNat }

/-- Model of `dt.astimezone(timezone.utc)` for an aware datetime: shift
the wall-clock fields by the negated offset and stamp UTC. -/
def astimezoneUTC (dt : PyDateTime) : PyDateTime :=
  match dt.tzinfo with
  | none => { dt with tzinfo := some 0 }
  | some o => { addMinutes dt (-o) with tzinfo := some 0 }

/-- Left-pad the decimal representation of a number to two digits. -/
def pad2 (n : Nat) : String :=
  if n < 10 then "0" ++ toString n else toString n

/-- Left-pad the decimal representation of a number to four digits. -/
def pad4 (n : Nat) : String :=
  if n < 10 then "000" ++ toString n
  else if n < 100 then "00" ++ toString n
  else if n < 1000 then "0" ++ toString n
  else toString n

/-- Model of Python `datetime.isoformat()` at second precision:
`YYYY-MM-DDTHH:MM:SS` followed by `±HH:MM` when an offset is present. -/
def isoformat (dt : PyDateTime) : String :=
  let base := pad4 dt.year ++ "-" ++ pad2 dt.month ++ "-" ++ pad2 dt.day
      ++ "T" ++ pad2 dt.hour ++ ":" ++ pad2 dt.minute ++ ":" ++ pad2 dt.second
  match dt.tzinfo with
  | none => base
  | some o =>
      let sign := if o < 0 then "-" else "+"
      let a := o.natAbs
      base ++ sign ++ pad2 (a / 60) ++ ":" ++ pad2 (a % 60)

/-- Embedding of `format_due_date` (Mail_Manager.py lines 53-57): assume
UTC when the parsed datetime carries no timezone, convert to UTC, and
serialize with `isoformat`. -/
def format_due_date (dt : PyDateTime) : String :=
  let dt := if dt.tzinfo.isNone then { dt with tzinfo := some 0 } else dt
  isoformat (astimezoneUTC dt)

/-! ## Google Tasks store model -/

/-- A task resource held by the remote store.  `extra` stands for the
remaining resource fields the code never touches individually. -/
structure GTask where
  id : String
  title : String
  notes : String
  due : String
  status : Option String
  extra : List (String × String)
  deriving Repr, DecidableEq

/-- The body dictionary passed to `tasks().insert` by `create_task`. -/
structure TaskBody where
  title : String
  notes : String
  due : String
  deriving Repr, DecidableEq

/-- A call issued to the remote task store by one tool invocation. -/
inductive SCall where
  | list (maxResults : Option Nat) (q : Option String)
  | insert (body : TaskBody)
  | update (task : String) (body : GTask)
  | delete (task : String)
  deriving Repr, DecidableEq

/-- Environment a tool runs against: the remote store content, the
remote behaviour the client does not control (query semantics, id and
status assigned on insert), and which remote calls raise an exception
(`some msg` models a raised exception with text `msg`). -/
structure Env where
  store : List GTask
  query : String → List GTask → List GTask
  freshId : String
  newStatus : Option String
  serviceExn : Option String
  listExn : Option String
  insertExn : Option String
  updateExn : Option String
  deleteExn : Option String

/-- Result of one tool invocation: the returned string, the store after
the invocation, and the trace of store calls issued (a call that raised
is still recorded as issued). -/
structure ToolOut where
  msg : String
  store : List GTask
  calls : List SCall
  deriving Repr

/-- Remote semantics of `tasks().list(maxResults=n)`: at most `n` tasks
from the top of the list. -/
def listTop (env : Env) (n : Nat) : List GTask := env.store.take n

/-- Remote semantics of `tasks().insert` without `previous`: the new
task is placed at the top of the list, with server-assigned id and
status. -/
def insertTask (env : Env) (body : TaskBody) : List GTask :=
  { id := env.freshId, title := body.title, notes := body.notes,
    due := body.due, status := env.newStatus, extra := [] } :: env.store

/-- Remote semantics of `tasks().update(task=tid, body=b)`: the resource
with id `tid` is replaced by `b`. -/
def updateTask (env : Env) (tid : String) (b : GTask) : List GTask :=
  env.store.map (fun t => if t.id == tid then b else t)

/-- Remote semantics of `tasks().delete(task=tid)`: the resource with id
`tid` is removed. -/
def deleteTask (env : Env) (tid : String) : List GTask :=
  env.store.eraseP (fun t => t.id == tid)

/-! ## The four tools -/

/-- Embedding of `read_tasks` (lines 61-74): list at most 10 tasks from
the default list; "No tasks found." when empty, otherwise one
`title - status` line per task, `status` rendered `unknown` when
absent; every exception becomes an `Error reading tasks:` string. -/
def read_tasks (env : Env) : ToolOut :=
  match env.serviceExn with
  | some e => ⟨"Error reading tasks: " ++ e, env.store, []⟩
  | none =>
    match env.listExn with
    | some e => ⟨"Error reading tasks: " ++ e, env.store, [.list (some 10) none]⟩
    | none =>
      let items := listTop env 10
      if items.isEmpty then
        ⟨"No tasks found.", env.store, [.list (some 10) none]⟩
      else
        ⟨String.intercalate "\n"
            (items.map (fun t => t.title ++ " - " ++ t.status.getD "unknown")),
          env.store, [.list (some 10) none]⟩

/-- Drop whitespace from both ends of a character list (Python
`str.strip`). -/
def stripChars (l : List Char) : List Char :=
  ((l.dropWhile Char.isWhitespace).reverse.dropWhile Char.isWhitespace).reverse

/-- Normalization used by the `create_task` duplicate scan:
`.strip().lower()` (whitespace trimmed from both ends, then
lowercased). -/
def normTitle (s : String) : String :=
  String.mk ((stripChars s.data).map Char.toLower)

/-- Embedding of `create_task` (lines 77-106): format the due date,
list up to 100 tasks, skip creation when a normalized exact title match
exists (the source's for-loop returning on the first match), otherwise
insert; every exception becomes an `Error creating task:` string. -/
def create_task (env : Env) (task_name status description : String)
    (timestamp : PyTs) : ToolOut :=
  match env.serviceExn with
  | some e => ⟨"Error creating task: " ++ e, env.store, []⟩
  | none =>
    match timestamp with
    | .error e => ⟨"Error creating task: " ++ e, env.store, []⟩
    | .ok dt =>
      let due_time := format_due_date dt
      match env.listExn with
      | some e => ⟨"Error creating task: " ++ e, env.store, [.list (some 100) none]⟩
      | none =>
        let existing_tasks := listTop env 100
        if existing_tasks.any (fun t => normTitle t.title == normTitle task_name) then
          ⟨"Task " ++ sq ++ task_name ++ sq ++ " already exists. Skipping creation.",
            env.store, [.list (some 100) none]⟩
        else
          let task_body : TaskBody :=
            { title := task_name, notes := status ++ ": " ++ description,
              due := due_time }
          match env.insertExn with
          | some e =>
              ⟨"Error creating task: " ++ e, env.store,
                [.list (some 100) none, .insert task_body]⟩
          | none =>
              ⟨"Task " ++ sq ++ task_name ++ sq ++ " created successfully.",
                insertTask env task_body,
                [.list (some 100) none, .insert task_body]⟩

/-- Embedding of `edit_task` (lines 109-143): query the store by title,
report not-found on an empty result, otherwise format the new due date,
overwrite title/notes/due on the first result (`dict.update`, keeping
every other field), and push the whole object back with `update`; every
exception becomes an `Error editing task:` string. -/
def edit_task (env : Env) (task_name new_status new_description : String)
    (new_timestamp : PyTs) : ToolOut :=
  match env.serviceExn with
  | some e => ⟨"Error editing task: " ++ e, env.store, []⟩
  | none =>
    match env.listExn with
    | some e => ⟨"Error editing task: " ++ e, env.store, [.list none (some task_name)]⟩
    | none =>
      match env.query task_name env.store with
      | [] =>
          ⟨"Task " ++ sq ++ task_name ++ sq ++ " not found.",
            env.store, [.list none (some task_name)]⟩
      | task_obj :: _ =>
        match new_timestamp with
        | .error e =>
            ⟨"Error editing task: " ++ e, env.store, [.list none (some task_name)]⟩
        | .ok dt =>
          let due_time := format_due_date dt
          let body : GTask :=
            { task_obj with
              title := task_name,
              notes := new_status ++ ": " ++ new_description,
              due := due_time }
          match env.updateExn with
          | some e =>
              ⟨"Error editing task: " ++ e, env.store,
                [.list none (some task_name), .update task_obj.id body]⟩
          | none =>
              ⟨"Task " ++ sq ++ task_name ++ sq ++ " updated successfully.",
                updateTask env task_obj.id body,
                [.list none (some task_name), .update task_obj.id body]⟩

/-- Embedding of `remove_task` (lines 146-165): query the store by
title, report not-found on an empty result, otherwise delete the first
result; every exception becomes an `Error removing task:` string. -/
def remove_task (env : Env) (task_name : String) : ToolOut :=
  match env.serviceExn with
  | some e => ⟨"Error removing task: " ++ e, env.store, []⟩
  | none =>
    match env.listExn with
    | some e => ⟨"Error removing task: " ++ e, env.store, [.list none (some task_name)]⟩
    | none =>
      match env.query task_name env.store with
      | [] =>
          ⟨"Task " ++ sq ++ task_name ++ sq ++ " not found.",
            env.store, [.list none (some task_name)]⟩
      | t0 :: _ =>
        match env.deleteExn with
        | some e =>
            ⟨"Error removing task: " ++ e, env.store,
              [.list none (some task_name), .delete t0.id]⟩
        | none =>
            ⟨"Task " ++ sq ++ task_name ++ sq ++ " removed successfully.",
              deleteTask env t0.id,
              [.list none (some task_name), .delete t0.id]⟩

/-! ## LangGraph model: messages and graph wiring -/

/-- A tool-call request carried by a model response, dispatched by name
by the `ToolNode` (the four registered tools). -/
inductive ToolCall where
  | read
  | create (task_name status description : String) (timestamp : PyTs)
  | edit (task_name new_status new_description : String) (new_timestamp : PyTs)
  | remove (task_name : String)
  deriving Repr, DecidableEq

/-- Message roles in the conversation state. -/
inductive Role where
  | system | user | ai | tool
  deriving Repr, DecidableEq

/-- A message of the conversation state (`AgentState.messages`): a role,
text content, and the tool-call requests (nonempty only on model
responses that request tools). -/
structure Msg where
  role : Role
  content : String
  tool_calls : List ToolCall
  deriving Repr, DecidableEq

/-- Dispatch one tool call against the registered tools. -/
def runToolCall (env : Env) : ToolCall → ToolOut
  | .read => read_tasks env
  | .create n s d ts => create_task env n s d ts
  | .edit n s d ts => edit_task env n s d ts
  | .remove n => remove_task env n

/-- The `ToolNode`: execute the pending tool calls in order, threading
the remote store, and produce one tool message per call. -/
def toolNodeRun (env : Env) : List ToolCall → List Msg × Env
  | [] => ([], env)
  | tc :: rest =>
    let r := runToolCall env tc
    let (ms, env2) := toolNodeRun { env with store := r.store } rest
    (⟨Role.tool, r.msg, []⟩ :: ms, env2)

/-- The external language model, seen through the invocation boundary:
a function from the prompt message sequence to one response message. -/
def Oracle : Type := List Msg → Msg

/-- Embedding of the `model_call` node (lines 196-199): invoke the model
on the system prompt followed by the current messages.  `add_messages`
appends the response, done by the step function below. -/
def model_call (model : Oracle) (sys : String) (msgs : List Msg) : Msg :=
  model (⟨Role.system, sys, []⟩ :: msgs)

/-- Embedding of `should_continue` (lines 202-208): look at the last
message; "end" when it requests no tool calls, else "continue".  (At the
point the graph evaluates it the message list is nonempty; the default
covers the impossible empty case.) -/
def should_continue (msgs : List Msg) : String :=
  let last_message := msgs.getLastD ⟨Role.ai, "", []⟩
  if last_message.tool_calls.isEmpty then "end" else "continue"

/-- Nodes of the compiled graph: the `mail_agent` node, the `tools`
node, and END. -/
inductive GNode where
  | mail_agent | tools | stop
  deriving Repr, DecidableEq

/-- State threaded through a graph run: the conversation messages, the
tool environment, how many times the model has been invoked, and the
sequence of state snapshots the `values` stream mode yields (one per
executed super-step, after the initial input snapshot). -/
structure RunSt where
  msgs : List Msg
  env : Env
  modelCalls : Nat
  stream : List (List Msg)

/-- One super-step of the compiled graph (lines 212-230): from
`mail_agent`, invoke the model, append its response, and follow the
conditional edge (`continue ↦ tools`, `end ↦ END`); from `tools`, run
the pending tool calls, append their result messages, and follow the
unconditional edge `tools → END`. -/
def stepNode (model : Oracle) (sys : String) : GNode → RunSt → GNode × RunSt
  | .mail_agent, st =>
    let response := model_call model sys st.msgs
    let msgs2 := st.msgs ++ [response]
    let st2 : RunSt :=
      { msgs := msgs2, env := st.env, modelCalls := st.modelCalls + 1,
        stream := st.stream ++ [msgs2] }
    (if should_continue msgs2 == "continue" then .tools else .stop, st2)
  | .tools, st =>
    let pending := (st.msgs.getLastD ⟨Role.ai, "", []⟩).tool_calls
    let (results, env2) := toolNodeRun st.env pending
    let msgs2 := st.msgs ++ results
    (.stop, { msgs := msgs2, env := env2, modelCalls := st.modelCalls,
              stream := st.stream ++ [msgs2] })
  | .stop, st => (.stop, st)

/-- Run the compiled graph for at most `fuel` super-steps (END is
absorbing). -/
def runFuel (model : Oracle) (sys : String) : Nat → GNode → RunSt → GNode × RunSt
  | 0, n, st => (n, st)
  | k + 1, n, st =>
    if n = GNode.stop then (n, st)
    else runFuel model sys k (stepNode model sys n st).1 (stepNode model sys n st).2

/-- Initial run state for an invocation of the compiled app: the input
messages, with the stream having yielded the input snapshot. -/
def initRunSt (msgs0 : List Msg) (env : Env) : RunSt :=
  { msgs := msgs0, env := env, modelCalls := 0, stream := [msgs0] }

/-- A full run of the compiled app from the entry point `mail_agent`.
Two super-steps always reach END (proved below), so fuel 2 is a full
run. -/
def appRun (model : Oracle) (sys : String) (msgs0 : List Msg) (env : Env) :
    GNode × RunSt :=
  runFuel model sys 2 .mail_agent (initRunSt msgs0 env)

/-- Result record of `analyse_email_process_task`. -/
structure AnalysisResult where
  final_response : String
  all_messages : List Msg
  execution_complete : Bool
  deriving Repr

/-- Embedding of `analyse_email_process_task` (lines 234-254): wrap the
email in the user directive, stream the app in `values` mode overwriting
`messages` with each yielded snapshot, then report the last message's
content (or "No response generated" on an empty sequence). -/
def analyse_email_process_task (model : Oracle) (sys : String) (env : Env)
    (email : String) : AnalysisResult :=
  let inputs : List Msg :=
    [⟨Role.user, "Please analyze this email and manage tasks accordingly:\n\n" ++ email, []⟩]
  let st := (appRun model sys inputs env).2
  let messages := st.stream.foldl (fun _ s => s) []
  let final_response :=
    match messages.getLast? with
    | some m => m.content
    | none => "No response generated"
  { final_response := final_response, all_messages := messages,
    execution_complete := true }

/-! ## Concrete fixtures used by witnesses -/

/-- A parsed naive timestamp (no timezone offset). -/
def dtNaive : PyDateTime := ⟨2025, 1, 15, 10, 30, 0, none⟩

/-- A sample stored task. -/
def tAlpha : GTask :=
  ⟨"tid-1", "Alpha", "pending: x", "2025-01-01T00:00:00+00:00", some "needsAction", []⟩

/-- Another sample stored task. -/
def tBeta : GTask :=
  ⟨"tid-2", "Beta", "pending: y", "2025-02-01T00:00:00+00:00", some "needsAction", []⟩

/-- A healthy environment: two stored tasks, exact-title query semantics,
no call raises. -/
def envBase : Env :=
  { store := [tAlpha, tBeta],
    query := fun q s => s.filter (fun t => t.title == q),
    freshId := "tid-new", newStatus := some "needsAction",
    serviceExn := none, listExn := none, insertExn := none,
    updateExn := none, deleteExn := none }

/-- An environment with an empty store and no failing calls. -/
def envEmpty : Env :=
  { envBase with store := [] }

/-- An environment whose remote query returns every stored task for any
query string (an extreme fuzzy match). -/
def envAll : Env :=
  { envBase with query := fun _ s => s }

/-- An environment whose service acquisition raises. -/
def envSvcDown : Env :=
  { envBase with serviceExn := some "HttpError 503" }

/-- The documented result strings of `read_tasks`: the empty-store
message, the formatted listing, or a stringified exception. -/
def ReadOutcome (env : Env) (r : String) : Prop :=
  r = "No tasks found." ∨
  r = String.intercalate "\n"
    ((env.store.take 10).map (fun t => t.title ++ " - " ++ t.status.getD "unknown")) ∨
  ∃ e, r = "Error reading tasks: " ++ e

/-- The documented result strings of `create_task`. -/
def CreateOutcome (task_name r : String) : Prop :=
  r = "Task " ++ sq ++ task_name ++ sq ++ " created successfully." ∨
  r = "Task " ++ sq ++ task_name ++ sq ++ " already exists. Skipping creation." ∨
  ∃ e, r = "Error creating task: " ++ e

/-- The documented result strings of `edit_task`. -/
def EditOutcome (task_name r : String) : Prop :=
  r = "Task " ++ sq ++ task_name ++ sq ++ " updated successfully." ∨
  r = "Task " ++ sq ++ task_name ++ sq ++ " not found." ∨
  ∃ e, r = "Error editing task: " ++ e

/-- The documented result strings of `remove_task`. -/
def RemoveOutcome (task_name r : String) : Prop :=
  r = "Task " ++ sq ++ task_name ++ sq ++ " removed successfully." ∨
  r = "Task " ++ sq ++ task_name ++ sq ++ " not found." ∨
  ∃ e, r = "Error removing task: " ++ e

/-! ## Theorems -/

/-- C6: `read_tasks` issues exactly one list call requesting at most 10
tasks; on an empty store it returns exactly "No tasks found.", and
otherwise one `title - status` line per returned task joined by
newlines, with absent status rendered "unknown". -/
theorem read_tasks_spec (env : Env)
    (hs : env.serviceExn = none) (hl : env.listExn = none) :
    (read_tasks env).calls = [SCall.list (some 10) none] ∧
    (env.store = [] → (read_tasks env).msg = "No tasks found.") ∧
    (env.store ≠ [] →
      (read_tasks env).msg = String.intercalate "\n"
        ((env.store.take 10).map
          (fun t => t.title ++ " - " ++ t.status.getD "unknown"))) := by
  unfold read_tasks listTop
  rw [hs, hl]
  refine ⟨?_, ?_, ?_⟩
  · by_cases h : (env.store.take 10).isEmpty <;> simp [h]
  · intro h
    simp [h]
  · intro h
    have h10 : ¬ (env.store.take 10).isEmpty := by
      simp [List.isEmpty_iff, List.take_eq_nil_iff, h]
    simp [h10]

/-- Witness for C6 at a concrete two-task store. -/
theorem read_tasks_spec_witness :
    (read_tasks envBase).calls = [SCall.list (some 10) none] ∧
    (read_tasks envBase).msg = "Alpha - needsAction\nBeta - needsAction" := by
  have h := read_tasks_spec envBase rfl rfl
  refine ⟨h.1, ?_⟩
  rw [h.2.2 (by decide)]
  rfl

/-- C5: when the title query returns no tasks, `edit_task` and
`remove_task` both return the not-found string, leave the store
unchanged, and issue no update, insert, or delete call (the only store
call in the trace is the query itself). -/
theorem edit_remove_not_found (env : Env) (task_name ns nd : String) (ts : PyTs)
    (hs : env.serviceExn = none) (hl : env.listExn = none)
    (hq : env.query task_name env.store = []) :
    edit_task env task_name ns nd ts =
      ⟨"Task " ++ sq ++ task_name ++ sq ++ " not found.", env.store,
        [SCall.list none (some task_name)]⟩ ∧
    remove_task env task_name =
      ⟨"Task " ++ sq ++ task_name ++ sq ++ " not found.", env.store,
        [SCall.list none (some task_name)]⟩ := by
  unfold edit_task remove_task
  rw [hs, hl, hq]
  exact ⟨rfl, rfl⟩

/-- Witness for C5: editing and removing a title absent from the store. -/
theorem edit_remove_not_found_witness :
    edit_task envBase "Zed" "done" "d" (Except.ok dtNaive) =
      ⟨"Task " ++ sq ++ "Zed" ++ sq ++ " not found.", envBase.store,
        [SCall.list none (some "Zed")]⟩ ∧
    remove_task envBase "Zed" =
      ⟨"Task " ++ sq ++ "Zed" ++ sq ++ " not found.", envBase.store,
        [SCall.list none (some "Zed")]⟩ :=
  edit_remove_not_found envBase "Zed" "done" "d" (Except.ok dtNaive) rfl rfl (by decide)

/-- C8: `create_task` formats the timestamp before its duplicate scan,
so on a malformed timestamp it returns the creation error string and
issues no store call at all (no list, no insert) — for every store
content, including stores already holding the same normalized title. -/
theorem create_task_parse_error (env : Env) (task_name status description e : String)
    (hs : env.serviceExn = none) :
    create_task env task_name status description (Except.error e) =
      ⟨"Error creating task: " ++ e, env.store, []⟩ := by
  unfold create_task
  rw [hs]

/-- Witness for C8: a malformed timestamp with a duplicate title already
in the store still yields the error string, not "already exists". -/
theorem create_task_parse_error_witness :
    create_task envBase "Alpha" "pending" "d" (Except.error "Invalid isoformat string") =
      ⟨"Error creating task: Invalid isoformat string", envBase.store, []⟩ ∧
    envBase.store.any (fun t => normTitle t.title == normTitle "Alpha") = true :=
  ⟨create_task_parse_error envBase "Alpha" "pending" "d" "Invalid isoformat string" rfl,
    by decide⟩

/-- C2: `create_task` is idempotent by normalized title.  Starting from
a store holding no task with the requested normalized title, the first
call inserts and reports success; a second call whose title normalizes
to the same string is answered "already exists", changes nothing, and
issues no insert call, so exactly one stored task carries that
normalized title. -/
theorem create_task_idempotent (env : Env)
    (task_name status description : String) (dt1 : PyDateTime)
    (name2 st2 d2 : String) (dt2 : PyDateTime)
    (hs : env.serviceExn = none) (hl : env.listExn = none)
    (hi : env.insertExn = none)
    (hfresh : ∀ t ∈ env.store, normTitle t.title ≠ normTitle task_name)
    (hname : normTitle name2 = normTitle task_name) :
    (create_task env task_name status description (Except.ok dt1)).msg =
      "Task " ++ sq ++ task_name ++ sq ++ " created successfully." ∧
    ((create_task env task_name status description (Except.ok dt1)).store.filter
        (fun t => normTitle t.title == normTitle task_name)).length = 1 ∧
    create_task
        { env with store := (create_task env task_name status description (Except.ok dt1)).store }
        name2 st2 d2 (Except.ok dt2) =
      ⟨"Task " ++ sq ++ name2 ++ sq ++ " already exists. Skipping creation.",
        (create_task env task_name status description (Except.ok dt1)).store,
        [SCall.list (some 100) none]⟩ := by
  have hany : (env.store.take 100).any
      (fun t => normTitle t.title == normTitle task_name) = false := by
    rw [List.any_eq_false]
    intro t ht
    simp only [beq_iff_eq]
    exact hfresh t (List.take_subset 100 env.store ht)
  have hr1 : create_task env task_name status description (Except.ok dt1) =
      ⟨"Task " ++ sq ++ task_name ++ sq ++ " created successfully.",
        insertTask env
          ⟨task_name, status ++ ": " ++ description, format_due_date dt1⟩,
        [SCall.list (some 100) none,
         SCall.insert ⟨task_name, status ++ ": " ++ description, format_due_date dt1⟩]⟩ := by
    unfold create_task listTop
    rw [hs, hl]
    simp [hany, hi]
  refine ⟨by rw [hr1], ?_, ?_⟩
  · rw [hr1]
    unfold insertTask
    have htail : env.store.filter (fun t => normTitle t.title == normTitle task_name) = [] := by
      rw [List.filter_eq_nil_iff]
      intro t ht
      simp only [beq_iff_eq]
      exact hfresh t ht
    simp [List.filter_cons, htail]
  · rw [hr1]
    unfold create_task listTop insertTask
    have hany2 :
        (({ id := env.freshId, title := task_name,
            notes := status ++ ": " ++ description,
            due := format_due_date dt1, status := env.newStatus,
            extra := [] } : GTask) :: env.store).take 100 =
          ({ id := env.freshId, title := task_name,
             notes := status ++ ": " ++ description,
             due := format_due_date dt1, status := env.newStatus,
             extra := [] } : GTask) :: env.store.take 99 := rfl
    rw [hs, hl]
    simp [hany2, hname]

/-- Witness for C2: creating "Quiz" then " QUIZ " against an initially
empty store stores the task once and answers "already exists". -/
theorem create_task_idempotent_witness :
    ((create_task envEmpty "Quiz" "pending" "d" (Except.ok dtNaive)).store.filter
        (fun t => normTitle t.title == normTitle "Quiz")).length = 1 ∧
    create_task
        { envEmpty with
          store := (create_task envEmpty "Quiz" "pending" "d" (Except.ok dtNaive)).store }
        " QUIZ " "done" "d2" (Except.ok dtNaive) =
      ⟨"Task " ++ sq ++ " QUIZ " ++ sq ++ " already exists. Skipping creation.",
        (create_task envEmpty "Quiz" "pending" "d" (Except.ok dtNaive)).store,
        [SCall.list (some 100) none]⟩ := by
  have h := create_task_idempotent envEmpty "Quiz" "pending" "d" dtNaive
    " QUIZ " "done" "d2" dtNaive rfl rfl rfl
    (by intro t ht; simp [envEmpty, envBase] at ht) (by decide)
  exact ⟨h.2.1, h.2.2⟩

/-- Shifting a date by zero days is the identity. -/
theorem addDays_zero (ymd : Nat × Nat × Nat) : addDays ymd 0 = ymd := by
  unfold addDays
  simp

/-- Shifting a well-formed time by zero minutes is the identity. -/
theorem addMinutes_zero (dt : PyDateTime) (hh : dt.hour < 24) (hm : dt.minute < 60) :
    addMinutes dt 0 = dt := by
  cases dt with
  | mk y mo d h mi s tz =>
    simp only at hh hm
    have e1 : ((h : Int) * 60 + (mi : Int) + 0) / 1440 = 0 := by omega
    have e2 : ((h : Int) * 60 + (mi : Int) + 0) % 1440 = (h : Int) * 60 + (mi : Int) := by
      omega
    simp only [addMinutes, e1, e2, addDays_zero, PyDateTime.mk.injEq, true_and, and_true]
    constructor <;> omega

/-- Converting an already-UTC datetime to UTC changes nothing. -/
theorem astimezoneUTC_utc (dt : PyDateTime) (hh : dt.hour < 24) (hm : dt.minute < 60) :
    astimezoneUTC { dt with tzinfo := some 0 } = { dt with tzinfo := some 0 } := by
  cases dt with
  | mk y mo d h mi s tz =>
    simp only at hh hm
    unfold astimezoneUTC
    simp only [neg_zero]
    rw [addMinutes_zero ⟨y, mo, d, h, mi, s, some 0⟩ hh hm]

/-- C3: a parsed timestamp carrying no timezone offset is interpreted as
UTC by `format_due_date`: the serialized value keeps the wall-clock
fields and stamps a zero UTC offset; and every store mutation issued by
`create_task` or `edit_task` with this timestamp sends exactly that UTC
ISO-8601 serialization as the due value. -/
theorem format_due_date_assumes_utc (dt : PyDateTime) (ht : dt.tzinfo = none)
    (hh : dt.hour < 24) (hm : dt.minute < 60) :
    format_due_date dt = isoformat { dt with tzinfo := some 0 } ∧
    (∀ env task_name status description body,
      SCall.insert body ∈
          (create_task env task_name status description (Except.ok dt)).calls →
      body.due = isoformat { dt with tzinfo := some 0 }) ∧
    (∀ env task_name ns nd tid body,
      SCall.update tid body ∈
          (edit_task env task_name ns nd (Except.ok dt)).calls →
      body.due = isoformat { dt with tzinfo := some 0 }) := by
  have hfd : format_due_date dt = isoformat { dt with tzinfo := some 0 } := by
    unfold format_due_date
    simp only [ht, Option.isNone_none, if_true]
    rw [astimezoneUTC_utc dt hh hm]
  refine ⟨hfd, ?_, ?_⟩
  · intro env task_name status description body hmem
    unfold create_task listTop at hmem
    cases hserv : env.serviceExn with
    | some e => rw [hserv] at hmem; simp at hmem
    | none =>
      rw [hserv] at hmem
      cases hlist : env.listExn with
      | some e => rw [hlist] at hmem; simp at hmem
      | none =>
        rw [hlist] at hmem
        by_cases hdup :
            ((env.store.take 100).any fun t => normTitle t.title == normTitle task_name) = true
        · simp [hdup] at hmem
        · cases hins : env.insertExn with
          | some e =>
              simp [hdup, hins] at hmem
              rw [hmem, hfd]
          | none =>
              simp [hdup, hins] at hmem
              rw [hmem, hfd]
  · intro env task_name ns nd tid body hmem
    unfold edit_task at hmem
    cases hserv : env.serviceExn with
    | some e => rw [hserv] at hmem; simp at hmem
    | none =>
      rw [hserv] at hmem
      cases hlist : env.listExn with
      | some e => rw [hlist] at hmem; simp at hmem
      | none =>
        rw [hlist] at hmem
        cases hq : env.query task_name env.store with
        | nil => simp [hq] at hmem
        | cons t0 rest =>
          cases hupd : env.updateExn with
          | some e =>
              simp [hq, hupd] at hmem
              rw [hmem.2, hfd]
          | none =>
              simp [hq, hupd] at hmem
              rw [hmem.2, hfd]

/-- Witness for C3: a concrete naive timestamp is serialized with its
wall-clock fields and a +00:00 offset. -/
theorem format_due_date_assumes_utc_witness :
    format_due_date dtNaive = "2025-01-15T10:30:00+00:00" := by
  have h := format_due_date_assumes_utc dtNaive rfl (by decide) (by decide)
  rw [h.1]
  rfl

/-- C9: when `edit_task` finds a match, the update body it sends
overwrites the matched task's title with the lookup string `task_name`,
sets notes to `new_status: new_description` and due to the normalized
timestamp, and carries the matched task's id, status, and remaining
fields over unchanged; the update targets the first queried task's id. -/
theorem edit_task_renames_to_query (env : Env)
    (task_name ns nd : String) (dt : PyDateTime)
    (t0 : GTask) (rest : List GTask)
    (hs : env.serviceExn = none) (hl : env.listExn = none)
    (hq : env.query task_name env.store = t0 :: rest) :
    (edit_task env task_name ns nd (Except.ok dt)).calls =
      [SCall.list none (some task_name),
       SCall.update t0.id
         { t0 with title := task_name, notes := ns ++ ": " ++ nd,
                   due := format_due_date dt }] ∧
    ({ t0 with title := task_name, notes := ns ++ ": " ++ nd,
               due := format_due_date dt } : GTask).id = t0.id ∧
    ({ t0 with title := task_name, notes := ns ++ ": " ++ nd,
               due := format_due_date dt } : GTask).status = t0.status ∧
    ({ t0 with title := task_name, notes := ns ++ ": " ++ nd,
               due := format_due_date dt } : GTask).extra = t0.extra := by
  refine ⟨?_, rfl, rfl, rfl⟩
  unfold edit_task
  rw [hs, hl, hq]
  cases env.updateExn <;> rfl

/-- Witness for C9: a fuzzy lookup for "Alph" matches the task titled
"Alpha" and the update body renames it to the search string "Alph". -/
theorem edit_task_renames_to_query_witness :
    (edit_task envAll "Alph" "done" "new" (Except.ok dtNaive)).calls =
      [SCall.list none (some "Alph"),
       SCall.update "tid-1"
         { tAlpha with title := "Alph", notes := "done" ++ ": " ++ "new",
                       due := format_due_date dtNaive }] :=
  (edit_task_renames_to_query envAll "Alph" "done" "new" dtNaive tAlpha [tBeta]
    rfl rfl rfl).1

/-- C7: `edit_task` and `remove_task` act only on the first task of the
query result: assuming the remote query returns stored tasks and ids are
unique, the first result is the one updated or deleted, exactly one task
changes, and every other returned task is left untouched. -/
theorem edit_remove_first_only (env : Env)
    (task_name ns nd : String) (dt : PyDateTime)
    (t0 : GTask) (rest : List GTask)
    (hs : env.serviceExn = none) (hl : env.listExn = none)
    (hu : env.updateExn = none) (hd : env.deleteExn = none)
    (hq : env.query task_name env.store = t0 :: rest)
    (hsub : ∀ t ∈ env.query task_name env.store, t ∈ env.store)
    (hids : (env.store.map GTask.id).Nodup) :
    ((edit_task env task_name ns nd (Except.ok dt)).store =
        env.store.map (fun t => if t.id == t0.id then
          { t0 with title := task_name, notes := ns ++ ": " ++ nd,
                    due := format_due_date dt } else t) ∧
      (∀ t ∈ rest, t ≠ t0 →
        t ∈ (edit_task env task_name ns nd (Except.ok dt)).store)) ∧
    ((remove_task env task_name).store =
        env.store.eraseP (fun t => t.id == t0.id) ∧
      (remove_task env task_name).store.length + 1 = env.store.length ∧
      (∀ t ∈ rest, t ≠ t0 → t ∈ (remove_task env task_name).store)) := by
  have ht0 : t0 ∈ env.store := hsub t0 (by rw [hq]; exact List.mem_cons_self t0 rest)
  have hid : ∀ t ∈ rest, t ≠ t0 → ¬ (t.id == t0.id) = true := by
    intro t htr hne
    simp only [beq_iff_eq]
    intro heq
    exact hne (List.inj_on_of_nodup_map hids
      (hsub t (by rw [hq]; exact List.mem_cons_of_mem t0 htr)) ht0 heq)
  have hedit : (edit_task env task_name ns nd (Except.ok dt)).store =
      env.store.map (fun t => if t.id == t0.id then
        { t0 with title := task_name, notes := ns ++ ": " ++ nd,
                  due := format_due_date dt } else t) := by
    unfold edit_task
    rw [hs, hl, hq, hu]
    rfl
  have hrem : (remove_task env task_name).store =
      env.store.eraseP (fun t => t.id == t0.id) := by
    unfold remove_task
    rw [hs, hl, hq, hd]
    rfl
  refine ⟨⟨hedit, ?_⟩, hrem, ?_, ?_⟩
  · intro t htr hne
    rw [hedit]
    refine List.mem_map.mpr ⟨t, hsub t (by rw [hq]; exact List.mem_cons_of_mem t0 htr), ?_⟩
    rw [if_neg (hid t htr hne)]
  · rw [hrem, List.length_eraseP_of_mem ht0 (by simp)]
    have : 0 < env.store.length := List.length_pos_of_mem ht0
    omega
  · intro t htr hne
    rw [hrem]
    exact (@List.mem_eraseP_of_neg GTask (fun x => x.id == t0.id) t env.store
      (hid t htr hne)).mpr
      (hsub t (by rw [hq]; exact List.mem_cons_of_mem t0 htr))

/-- Witness for C7: with a query returning both stored tasks, only the
first ("Alpha") is edited or removed; "Beta" is untouched. -/
theorem edit_remove_first_only_witness :
    (remove_task envAll "Alph").store = [tBeta] ∧
    (edit_task envAll "Alph" "done" "new" (Except.ok dtNaive)).store =
      [{ tAlpha with title := "Alph", notes := "done" ++ ": " ++ "new",
                     due := format_due_date dtNaive }, tBeta] := by
  have h := edit_remove_first_only envAll "Alph" "done" "new" dtNaive tAlpha [tBeta]
    rfl rfl rfl rfl rfl (fun t ht => ht) (by decide)
  refine ⟨?_, ?_⟩
  · rw [h.2.1]
    decide
  · rw [h.1.1]
    rfl

/-- END is absorbing: a run standing at END never executes another
node. -/
theorem runFuel_stop (model : Oracle) (sys : String) (k : Nat) (st : RunSt) :
    runFuel model sys k GNode.stop st = (GNode.stop, st) := by
  cases k with
  | zero => rfl
  | succ k => rw [runFuel, if_pos rfl]

/-- C1: with enough fuel for the two possible super-steps, a run whose
model response carries at least one tool call terminates at END right
after the tools node (the `tools → END` edge never re-enters
`mail_agent` and never invokes the model), the model is invoked exactly
once, and the final messages are the input, the response, then the tool
result messages. -/
theorem graph_single_pass (model : Oracle) (sys : String) (env : Env)
    (msgs0 : List Msg) (fuel : Nat) (hf : 2 ≤ fuel)
    (htc : (model_call model sys msgs0).tool_calls ≠ []) :
    (∀ st : RunSt, (stepNode model sys GNode.tools st).1 = GNode.stop ∧
      ((stepNode model sys GNode.tools st).2).modelCalls = st.modelCalls) ∧
    (runFuel model sys fuel GNode.mail_agent (initRunSt msgs0 env)).1 = GNode.stop ∧
    ((runFuel model sys fuel GNode.mail_agent (initRunSt msgs0 env)).2).modelCalls = 1 ∧
    ((runFuel model sys fuel GNode.mail_agent (initRunSt msgs0 env)).2).msgs =
      (msgs0 ++ [model_call model sys msgs0]) ++
        (toolNodeRun env (model_call model sys msgs0).tool_calls).1 := by
  obtain ⟨k, rfl⟩ : ∃ k, fuel = k + 2 := ⟨fuel - 2, by omega⟩
  have hstep1 : stepNode model sys GNode.mail_agent (initRunSt msgs0 env) =
      (GNode.tools,
        ⟨msgs0 ++ [model_call model sys msgs0], env, 1,
          [msgs0, msgs0 ++ [model_call model sys msgs0]]⟩) := by
    unfold stepNode should_continue initRunSt
    simp [List.getLastD_concat, htc]
  have hstep2 : stepNode model sys GNode.tools
      (⟨msgs0 ++ [model_call model sys msgs0], env, 1,
        [msgs0, msgs0 ++ [model_call model sys msgs0]]⟩ : RunSt) =
      (GNode.stop,
        ⟨(msgs0 ++ [model_call model sys msgs0]) ++
            (toolNodeRun env (model_call model sys msgs0).tool_calls).1,
          (toolNodeRun env (model_call model sys msgs0).tool_calls).2, 1,
          [msgs0, msgs0 ++ [model_call model sys msgs0],
            (msgs0 ++ [model_call model sys msgs0]) ++
              (toolNodeRun env (model_call model sys msgs0).tool_calls).1]⟩) := by
    unfold stepNode
    simp [List.getLastD_concat]
  have hrun : runFuel model sys (k + 2) GNode.mail_agent (initRunSt msgs0 env) =
      (GNode.stop,
        ⟨(msgs0 ++ [model_call model sys msgs0]) ++
            (toolNodeRun env (model_call model sys msgs0).tool_calls).1,
          (toolNodeRun env (model_call model sys msgs0).tool_calls).2, 1,
          [msgs0, msgs0 ++ [model_call model sys msgs0],
            (msgs0 ++ [model_call model sys msgs0]) ++
              (toolNodeRun env (model_call model sys msgs0).tool_calls).1]⟩) := by
    show runFuel model sys (k + 1 + 1) GNode.mail_agent (initRunSt msgs0 env) = _
    rw [runFuel, if_neg (by simp), hstep1]
    dsimp only
    rw [runFuel, if_neg (by simp), hstep2]
    dsimp only
    exact runFuel_stop model sys k _
  refine ⟨fun st => ⟨rfl, rfl⟩, ?_, ?_, ?_⟩ <;> rw [hrun]

/-- Witness for C1: a concrete model that requests `read_tasks` — the
run stops at END after the tools node with the tool result last. -/
theorem graph_single_pass_witness :
    (runFuel (fun _ => ⟨Role.ai, "on it", [ToolCall.read]⟩) "sys" 2 GNode.mail_agent
        (initRunSt [⟨Role.user, "hi", []⟩] envBase)).1 = GNode.stop ∧
    ((runFuel (fun _ => ⟨Role.ai, "on it", [ToolCall.read]⟩) "sys" 2 GNode.mail_agent
        (initRunSt [⟨Role.user, "hi", []⟩] envBase)).2).modelCalls = 1 ∧
    ((runFuel (fun _ => ⟨Role.ai, "on it", [ToolCall.read]⟩) "sys" 2 GNode.mail_agent
        (initRunSt [⟨Role.user, "hi", []⟩] envBase)).2).msgs =
      [⟨Role.user, "hi", []⟩, ⟨Role.ai, "on it", [ToolCall.read]⟩,
        ⟨Role.tool, "Alpha - needsAction\nBeta - needsAction", []⟩] := by
  have h := graph_single_pass (fun _ => ⟨Role.ai, "on it", [ToolCall.read]⟩) "sys"
    envBase [⟨Role.user, "hi", []⟩] 2 (by omega) (by decide)
  refine ⟨h.2.1, h.2.2.1, ?_⟩
  rw [h.2.2.2]
  rfl

/-- In a full two-step run, the last snapshot the `values` stream yields
is the final state's message sequence; the stream-consuming loop that
keeps only the last yield therefore ends holding exactly those
messages. -/
theorem stream_last_eq_msgs (model : Oracle) (sys : String) (msgs0 : List Msg) (env : Env) :
    (((runFuel model sys 2 GNode.mail_agent (initRunSt msgs0 env)).2).stream).foldl
        (fun _ s => s) [] =
      ((runFuel model sys 2 GNode.mail_agent (initRunSt msgs0 env)).2).msgs := by
  by_cases htc : (model_call model sys msgs0).tool_calls.isEmpty
  · have hstep : stepNode model sys GNode.mail_agent (initRunSt msgs0 env) =
        (GNode.stop,
          ⟨msgs0 ++ [model_call model sys msgs0], env, 1,
            [msgs0, msgs0 ++ [model_call model sys msgs0]]⟩) := by
      unfold stepNode should_continue initRunSt
      simp [List.getLastD_concat, htc]
    show (((runFuel model sys (1 + 1) GNode.mail_agent (initRunSt msgs0 env)).2).stream).foldl
        (fun _ s => s) [] = _
    rw [runFuel, if_neg (by simp), hstep]
    dsimp only
    rw [runFuel_stop]
    rfl
  · have hstep : stepNode model sys GNode.mail_agent (initRunSt msgs0 env) =
        (GNode.tools,
          ⟨msgs0 ++ [model_call model sys msgs0], env, 1,
            [msgs0, msgs0 ++ [model_call model sys msgs0]]⟩) := by
      unfold stepNode should_continue initRunSt
      simp [List.getLastD_concat, htc]
    show (((runFuel model sys (1 + 1) GNode.mail_agent (initRunSt msgs0 env)).2).stream).foldl
        (fun _ s => s) [] = _
    rw [runFuel, if_neg (by simp), hstep]
    dsimp only
    show (((runFuel model sys (0 + 1) GNode.tools _).2).stream).foldl (fun _ s => s) [] = _
    rw [runFuel, if_neg (by simp)]
    rfl

/-- C10: `analyse_email_process_task` always reports execution complete,
returns as `all_messages` the message sequence of the final streamed
state, and as `final_response` the content of the last of those
messages — or the literal "No response generated" when the sequence is
empty. -/
theorem analyse_email_result (model : Oracle) (sys : String) (env : Env) (email : String) :
    (analyse_email_process_task model sys env email).execution_complete = true ∧
    (analyse_email_process_task model sys env email).all_messages =
      ((appRun model sys
          [⟨Role.user, "Please analyze this email and manage tasks accordingly:\n\n" ++ email, []⟩]
          env).2).msgs ∧
    (analyse_email_process_task model sys env email).final_response =
      (match (analyse_email_process_task model sys env email).all_messages.getLast? with
       | some m => m.content
       | none => "No response generated") := by
  refine ⟨rfl, ?_, rfl⟩
  exact stream_last_eq_msgs model sys
    [⟨Role.user, "Please analyze this email and manage tasks accordingly:\n\n" ++ email, []⟩] env

/-- Every `read_tasks` result is one of its documented strings. -/
theorem read_tasks_outcome (env : Env) : ReadOutcome env (read_tasks env).msg := by
  unfold read_tasks ReadOutcome listTop
  cases env.serviceExn with
  | some e => right; right; exact ⟨e, rfl⟩
  | none =>
    cases env.listExn with
    | some e => right; right; exact ⟨e, rfl⟩
    | none =>
      by_cases h : (env.store.take 10).isEmpty
      · left
        simp [h]
      · right
        left
        simp [h]

/-- Every `create_task` result is one of its documented strings. -/
theorem create_task_outcome (env : Env) (n s d : String) (ts : PyTs) :
    CreateOutcome n (create_task env n s d ts).msg := by
  unfold create_task CreateOutcome listTop
  cases env.serviceExn with
  | some e => right; right; exact ⟨e, rfl⟩
  | none =>
    cases ts with
    | error e => right; right; exact ⟨e, rfl⟩
    | ok dt =>
      cases env.listExn with
      | some e => right; right; exact ⟨e, rfl⟩
      | none =>
        by_cases h : ((env.store.take 100).any fun t => normTitle t.title == normTitle n) = true
        · right
          left
          simp [h]
        · cases hins : env.insertExn with
          | some e =>
              right
              right
              refine ⟨e, ?_⟩
              simp [h, hins]
          | none =>
              left
              simp [h, hins]

/-- Every `edit_task` result is one of its documented strings. -/
theorem edit_task_outcome (env : Env) (n s d : String) (ts : PyTs) :
    EditOutcome n (edit_task env n s d ts).msg := by
  unfold edit_task EditOutcome
  cases env.serviceExn with
  | some e => right; right; exact ⟨e, rfl⟩
  | none =>
    cases env.listExn with
    | some e => right; right; exact ⟨e, rfl⟩
    | none =>
      cases env.query n env.store with
      | nil => right; left; rfl
      | cons t0 rest =>
        cases ts with
        | error e => right; right; exact ⟨e, rfl⟩
        | ok dt =>
          cases env.updateExn with
          | some e => right; right; exact ⟨e, rfl⟩
          | none => left; rfl

/-- Every `remove_task` result is one of its documented strings. -/
theorem remove_task_outcome (env : Env) (n : String) :
    RemoveOutcome n (remove_task env n).msg := by
  unfold remove_task RemoveOutcome
  cases env.serviceExn with
  | some e => right; right; exact ⟨e, rfl⟩
  | none =>
    cases env.listExn with
    | some e => right; right; exact ⟨e, rfl⟩
    | none =>
      cases env.query n env.store with
      | nil => right; left; rfl
      | cons t0 rest =>
        cases env.deleteExn with
        | some e => right; right; exact ⟨e, rfl⟩
        | none => left; rfl

/-- C4: no exception propagates past a tool boundary: every tool result
is one of the tool's documented status strings, and each modelled
exception — service acquisition, any store call, or timestamp parsing —
that the executed path reaches surfaces verbatim inside the
corresponding descriptive error string. -/
theorem tools_never_propagate (env : Env) (n s d nn ne nd : String) (ts ts2 : PyTs) :
    ReadOutcome env (read_tasks env).msg ∧
    CreateOutcome n (create_task env n s d ts).msg ∧
    EditOutcome nn (edit_task env nn ne nd ts2).msg ∧
    RemoveOutcome nn (remove_task env nn).msg ∧
    (∀ e, env.serviceExn = some e →
      (read_tasks env).msg = "Error reading tasks: " ++ e ∧
      (create_task env n s d ts).msg = "Error creating task: " ++ e ∧
      (edit_task env nn ne nd ts2).msg = "Error editing task: " ++ e ∧
      (remove_task env nn).msg = "Error removing task: " ++ e) ∧
    (∀ e, env.serviceExn = none → env.listExn = some e →
      (read_tasks env).msg = "Error reading tasks: " ++ e ∧
      (∀ dt, ts = Except.ok dt →
        (create_task env n s d ts).msg = "Error creating task: " ++ e) ∧
      (edit_task env nn ne nd ts2).msg = "Error editing task: " ++ e ∧
      (remove_task env nn).msg = "Error removing task: " ++ e) ∧
    (∀ e, env.serviceExn = none → ts = Except.error e →
      (create_task env n s d ts).msg = "Error creating task: " ++ e) ∧
    (∀ e t0 rest, env.serviceExn = none → env.listExn = none →
      env.query nn env.store = t0 :: rest → ts2 = Except.error e →
      (edit_task env nn ne nd ts2).msg = "Error editing task: " ++ e) ∧
    (∀ e dt, env.serviceExn = none → env.listExn = none → env.insertExn = some e →
      ts = Except.ok dt →
      (create_task env n s d ts).msg = "Error creating task: " ++ e ∨
      (create_task env n s d ts).msg =
        "Task " ++ sq ++ n ++ sq ++ " already exists. Skipping creation.") ∧
    (∀ e dt t0 rest, env.serviceExn = none → env.listExn = none →
      env.updateExn = some e → ts2 = Except.ok dt →
      env.query nn env.store = t0 :: rest →
      (edit_task env nn ne nd ts2).msg = "Error editing task: " ++ e) ∧
    (∀ e t0 rest, env.serviceExn = none → env.listExn = none →
      env.deleteExn = some e → env.query nn env.store = t0 :: rest →
      (remove_task env nn).msg = "Error removing task: " ++ e) := by
  refine ⟨read_tasks_outcome env, create_task_outcome env n s d ts,
    edit_task_outcome env nn ne nd ts2, remove_task_outcome env nn,
    ?_, ?_, ?_, ?_, ?_, ?_, ?_⟩
  · intro e he
    refine ⟨?_, ?_, ?_, ?_⟩ <;>
      simp [read_tasks, create_task, edit_task, remove_task, he]
  · intro e hs hl
    refine ⟨?_, ?_, ?_, ?_⟩
    · simp [read_tasks, hs, hl]
    · intro dt hts
      subst hts
      simp [create_task, hs, hl]
    · simp [edit_task, hs, hl]
    · simp [remove_task, hs, hl]
  · intro e hs hts
    subst hts
    simp [create_task, hs]
  · intro e t0 rest hs hl hq hts
    subst hts
    simp [edit_task, hs, hl, hq]
  · intro e dt hs hl hi hts
    subst hts
    by_cases hdup :
        ((env.store.take 100).any fun t => normTitle t.title == normTitle n) = true
    · right
      simp [create_task, listTop, hs, hl, hi, hdup]
    · left
      simp [create_task, listTop, hs, hl, hi, hdup]
  · intro e dt t0 rest hs hl hu hts hq
    subst hts
    simp [edit_task, hs, hl, hu, hq]
  · intro e t0 rest hs hl hd hq
    simp [remove_task, hs, hl, hd, hq]

/-- Witness for C4: a raised service exception surfaces as the
descriptive error string of each of the four tools. -/
theorem tools_never_propagate_witness :
    (read_tasks envSvcDown).msg = "Error reading tasks: HttpError 503" ∧
    (create_task envSvcDown "T" "s" "d" (Except.ok dtNaive)).msg =
      "Error creating task: HttpError 503" ∧
    (edit_task envSvcDown "T" "s" "d" (Except.ok dtNaive)).msg =
      "Error editing task: HttpError 503" ∧
    (remove_task envSvcDown "T").msg = "Error removing task: HttpError 503" :=
  (tools_never_propagate envSvcDown "T" "s" "d" "T" "s" "d"
    (Except.ok dtNaive) (Except.ok dtNaive)).2.2.2.2.1 "HttpError 503" rfl

end MailManager
